import Mathlib

/-!
Verification of the SLA monitoring engine of the incident-tracker service
(`src/backend/services/emailService.js`, class `SLAService`).

Shallow embedding conventions:
* Timestamps and durations are rational numbers of **minutes** (the source
  works in milliseconds; every quantity the engine computes is a fixed
  rescaling, and all thresholds/comparisons are preserved exactly).
* The business-hours walk (`addBusinessHours`) works on natural-number
  minutes since an epoch whose day 0 is a Thursday (as for the JS Date
  epoch 1970-01-01); `Date.getDay` is `dayOfWeek` with Sunday = 0.
* Database effects are made explicit: a `DBState` carries the rows of the
  `notifications` table and the alert-log entries written by
  `db.insertLog`; an `INSERT` is an append.  Fallible queries are passed
  in as `Except Unit` values (`Except.error` is a raised/rejected query).
* Notification message text is abstracted to a `Message` value recording
  which template the source interpolates and its numeric payload
  (`Math.round(h*100)/100` is `jsRound`).
-/

set_option autoImplicit false

namespace IncidentTracker

/-- The three alert kinds of the monitor. -/
inductive AlertKind where
  | breach
  | critical
  | warning
deriving DecidableEq, Repr

/-- The string the source uses for an alert kind (breach etc.). -/
def AlertKind.str : AlertKind → String
  | .breach => "breach"
  | .critical => "critical"
  | .warning => "warning"

/-- Warning/critical ratios (`this.alertThresholds` in the source). -/
structure Thresholds where
  warning : ℚ
  critical : ℚ
deriving DecidableEq, Repr

/-- The compiled-in defaults set in the `SLAService` constructor. -/
def defaultThresholds : Thresholds := { warning := 0.8, critical := 0.95 }

/-- The ticket fields the SLA engine reads (a row of
`getActiveTicketsWithSLA`).  `created_at`/`sla_target` are minutes. -/
structure Ticket where
  id : Nat
  title : String
  created_at : ℚ
  sla_target : ℚ
  assignee_id : Option Nat
  reporter_id : Option Nat
deriving DecidableEq, Repr

/-- Abstraction of the four message templates interpolated by the source;
the numeric argument is the already-rounded hours figure that the template
embeds in the text. -/
inductive Message where
  | breachAssignee (title : String) (hoursOverdue : ℚ)
  | breachReporter (title : String)
  | criticalAssignee (title : String) (hoursRemaining : ℚ)
  | warningAssignee (title : String) (hoursRemaining : ℚ)
deriving DecidableEq, Repr

/-- A row of the `notifications` table as inserted by
`createSLANotification` (`created_at` is the DB-assigned insert time). -/
structure NotifRow where
  user_id : Option Nat
  ticket_id : Nat
  ntype : String
  title : String
  message : Message
  created_at : ℚ
deriving DecidableEq, Repr

/-- The alert-log entry written by `recordSLAAlert` via `db.insertLog`
(action `sla_alert`); `hours` is the `hours_overdue` / `hours_remaining`
detail field. -/
structure LogRow where
  resource_id : Nat
  alert_type : String
  hours : ℚ
  sla_target : ℚ
deriving DecidableEq, Repr

/-- The mutable store the engine writes to. -/
structure DBState where
  notifications : List NotifRow
  logs : List LogRow
deriving DecidableEq, Repr

/-- The empty store. -/
def DBState.empty : DBState := { notifications := [], logs := [] }

/-- `Math.round(h * 100) / 100` (JS `Math.round` rounds half toward +∞,
exactly the Mathlib `round` on ℚ). -/
def jsRound (h : ℚ) : ℚ := (round (h * 100) : ℤ) / 100

/-- `createSLANotification`: builds the row inserted into `notifications`
(`now` is the insert timestamp the DB would assign). -/
def createSLANotification (userId : Option Nat) (ticketId : Nat)
    (ntype : String) (title : String) (message : Message) (now : ℚ) :
    NotifRow :=
  { user_id := userId, ticket_id := ticketId, ntype := ntype,
    title := title, message := message, created_at := now }

/-- `sendBreachNotifications`: assignee row when `assignee_id` is truthy,
then reporter row when `reporter_id !== assignee_id`. -/
def sendBreachNotifications (t : Ticket) (hoursOverdue : ℚ) (now : ℚ) :
    List NotifRow :=
  (if t.assignee_id.isSome then
    [createSLANotification t.assignee_id t.id "sla_breach"
      ("SLA Breach - Ticket #" ++ toString t.id)
      (Message.breachAssignee t.title (jsRound hoursOverdue)) now]
  else []) ++
  (if t.reporter_id ≠ t.assignee_id then
    [createSLANotification t.reporter_id t.id "sla_breach"
      ("SLA Breach Alert - Your Ticket #" ++ toString t.id)
      (Message.breachReporter t.title) now]
  else [])

/-- `sendCriticalWarningNotifications`: assignee only. -/
def sendCriticalWarningNotifications (t : Ticket) (hoursRemaining : ℚ)
    (now : ℚ) : List NotifRow :=
  if t.assignee_id.isSome then
    [createSLANotification t.assignee_id t.id "sla_critical"
      ("Critical SLA Warning - Ticket #" ++ toString t.id)
      (Message.criticalAssignee t.title (jsRound hoursRemaining)) now]
  else []

/-- `sendWarningNotifications`: assignee only. -/
def sendWarningNotifications (t : Ticket) (hoursRemaining : ℚ) (now : ℚ) :
    List NotifRow :=
  if t.assignee_id.isSome then
    [createSLANotification t.assignee_id t.id "sla_warning"
      ("SLA Warning - Ticket #" ++ toString t.id)
      (Message.warningAssignee t.title (jsRound hoursRemaining)) now]
  else []

/-- `recordSLAAlert`: the log entry persisted for one alert. -/
def recordSLAAlert (ticketId : Nat) (alertType : String) (hours : ℚ)
    (slaTarget : ℚ) : LogRow :=
  { resource_id := ticketId, alert_type := alertType, hours := hours,
    sla_target := slaTarget }

/-- The rows returned by the dedup query of `checkExistingAlert`:
notifications for this ticket of type `sla_<kind>` created within the
last 24 hours (1440 minutes). -/
def existingAlertQuery (db : DBState) (now : ℚ) (ticketId : Nat)
    (alertType : String) : List NotifRow :=
  db.notifications.filter (fun n =>
    n.ticket_id == ticketId && n.ntype == ("sla_" ++ alertType) &&
      decide (now - 1440 < n.created_at))

/-- `checkExistingAlert`: true when the dedup query returns rows; a failed
query is caught and reported as `false`. -/
def checkExistingAlert (q : Except Unit (List NotifRow)) : Bool :=
  match q with
  | Except.error _ => false
  | Except.ok rows => decide (0 < rows.length)

/-- Body of `handleSLABreach` after the existence check (the source
returns early when `existingBreach` is truthy, otherwise records the
alert and sends the notifications). -/
def handleSLABreachCore (db : DBState) (t : Ticket) (hoursOverdue : ℚ)
    (now : ℚ) (existingBreach : Bool) : DBState :=
  if existingBreach then db
  else
    { notifications := db.notifications ++ sendBreachNotifications t hoursOverdue now,
      logs := db.logs ++ [recordSLAAlert t.id "breach" hoursOverdue t.sla_target] }

/-- `handleSLABreach`. -/
def handleSLABreach (db : DBState) (t : Ticket) (hoursOverdue : ℚ)
    (now : ℚ) : DBState :=
  handleSLABreachCore db t hoursOverdue now
    (checkExistingAlert (Except.ok (existingAlertQuery db now t.id "breach")))

/-- Body of `handleCriticalSLAWarning` after the existence check. -/
def handleCriticalSLAWarningCore (db : DBState) (t : Ticket)
    (hoursRemaining : ℚ) (now : ℚ) (existingAlert : Bool) : DBState :=
  if existingAlert then db
  else
    { notifications := db.notifications ++ sendCriticalWarningNotifications t hoursRemaining now,
      logs := db.logs ++ [recordSLAAlert t.id "critical" hoursRemaining t.sla_target] }

/-- `handleCriticalSLAWarning`. -/
def handleCriticalSLAWarning (db : DBState) (t : Ticket)
    (hoursRemaining : ℚ) (now : ℚ) : DBState :=
  handleCriticalSLAWarningCore db t hoursRemaining now
    (checkExistingAlert (Except.ok (existingAlertQuery db now t.id "critical")))

/-- Body of `handleSLAWarning` after the existence check. -/
def handleSLAWarningCore (db : DBState) (t : Ticket) (hoursRemaining : ℚ)
    (now : ℚ) (existingAlert : Bool) : DBState :=
  if existingAlert then db
  else
    { notifications := db.notifications ++ sendWarningNotifications t hoursRemaining now,
      logs := db.logs ++ [recordSLAAlert t.id "warning" hoursRemaining t.sla_target] }

/-- `handleSLAWarning`. -/
def handleSLAWarning (db : DBState) (t : Ticket) (hoursRemaining : ℚ)
    (now : ℚ) : DBState :=
  handleSLAWarningCore db t hoursRemaining now
    (checkExistingAlert (Except.ok (existingAlertQuery db now t.id "warning")))

/-- `evaluateTicketSLA`: classify one ticket against the current time and
dispatch to the matching handler (first match returns). -/
def evaluateTicketSLA (th : Thresholds) (db : DBState) (t : Ticket)
    (now : ℚ) : DBState :=
  let totalSLATime := t.sla_target - t.created_at
  let elapsedTime := now - t.created_at
  let remainingTime := t.sla_target - now
  let slaPercentage := elapsedTime / totalSLATime
  let hoursRemaining := remainingTime / 60
  let hoursOverdue := if hoursRemaining < 0 then |hoursRemaining| else 0
  if remainingTime < 0 then
    handleSLABreach db t hoursOverdue now
  else if th.critical ≤ slaPercentage then
    handleCriticalSLAWarning db t hoursRemaining now
  else if th.warning ≤ slaPercentage then
    handleSLAWarning db t hoursRemaining now
  else db

/-- The classification `evaluateTicketSLA` dispatches on, as a value:
`none` means no branch fires (no action for this ticket). -/
def classifySLA (th : Thresholds) (t : Ticket) (now : ℚ) :
    Option AlertKind :=
  let slaPercentage := (now - t.created_at) / (t.sla_target - t.created_at)
  if t.sla_target - now < 0 then some AlertKind.breach
  else if th.critical ≤ slaPercentage then some AlertKind.critical
  else if th.warning ≤ slaPercentage then some AlertKind.warning
  else none

/-- One iteration of the loop in `checkSLABreaches`.  A `none` row stands
for a malformed (nullish) ticket record: the property accesses at the top
of `evaluateTicketSLA` throw on it.  On a well-formed row
`evaluateTicketSLA` itself never throws (every await inside it is wrapped
in its own try/catch). -/
def evaluateTicketRow (th : Thresholds) (db : DBState)
    (row : Option Ticket) (now : ℚ) : Except Unit DBState :=
  match row with
  | none => Except.error ()
  | some t => Except.ok (evaluateTicketSLA th db t now)

/-- `checkSLABreaches`: the per-pass loop.  The try/catch wraps the whole
`for` loop, so the first row whose evaluation throws ends the pass: the
error is logged and the already-accumulated state is kept, but the
remaining rows are not visited. -/
def checkSLABreaches (th : Thresholds) (db : DBState) (now : ℚ) :
    List (Option Ticket) → DBState
  | [] => db
  | row :: rest =>
    match evaluateTicketRow th db row now with
    | Except.error _ => db
    | Except.ok db1 => checkSLABreaches th db1 now rest

/-! ### Business-hours deadline arithmetic (`addBusinessHours`)

Time is a natural number of minutes since an epoch whose day 0 is a
Thursday, so `dayOfWeek` agrees with JS `Date.getDay` (Sunday = 0). -/

/-- `result.getDay()`. -/
def dayOfWeek (t : Nat) : Nat := (t / 1440 + 4) % 7

/-- Minutes past local midnight. -/
def minuteOfDay (t : Nat) : Nat := t % 1440

/-- `result.getHours()`. -/
def hourOfDay (t : Nat) : Nat := minuteOfDay t / 60

/-- `result.setDate(result.getDate() + 1); result.setHours(9, 0, 0, 0)`:
09:00 on the next calendar day. -/
def nextDay9 (t : Nat) : Nat := (t / 1440 + 1) * 1440 + 540

/-- `result.setHours(9, 0, 0, 0)`: 09:00 on the same calendar day. -/
def sameDay9 (t : Nat) : Nat := (t / 1440) * 1440 + 540

/-- Number of consecutive clock-adjusting (non-consuming) iterations the
`addBusinessHours` loop performs from time `t` before reaching a time
inside the business window; used as the termination measure padding. -/
def adjustSteps (t : Nat) : Nat :=
  if dayOfWeek t = 6 then 2
  else if dayOfWeek t = 0 then 1
  else if hourOfDay t < 9 then 1
  else if 17 ≤ hourOfDay t then (if dayOfWeek t = 5 then 3 else 1)
  else 0

theorem adjustSteps_le_three (t : Nat) : adjustSteps t ≤ 3 := by
  unfold adjustSteps
  split_ifs <;> omega

theorem dayOfWeek_nextDay9 (t : Nat) :
    dayOfWeek (nextDay9 t) = (dayOfWeek t + 1) % 7 := by
  unfold dayOfWeek nextDay9
  omega

theorem hourOfDay_nextDay9 (t : Nat) : hourOfDay (nextDay9 t) = 9 := by
  unfold hourOfDay minuteOfDay nextDay9
  omega

theorem dayOfWeek_sameDay9 (t : Nat) : dayOfWeek (sameDay9 t) = dayOfWeek t := by
  unfold dayOfWeek sameDay9
  omega

theorem hourOfDay_sameDay9 (t : Nat) : hourOfDay (sameDay9 t) = 9 := by
  unfold hourOfDay minuteOfDay sameDay9
  omega

theorem dayOfWeek_lt_seven (t : Nat) : dayOfWeek t < 7 := by
  unfold dayOfWeek
  omega

theorem adjustSteps_weekend (t : Nat)
    (h : dayOfWeek t = 0 ∨ dayOfWeek t = 6) :
    adjustSteps (nextDay9 t) < adjustSteps t := by
  have hd := dayOfWeek_nextDay9 t
  have hh := hourOfDay_nextDay9 t
  unfold adjustSteps
  rcases h with h | h <;> rw [hd, hh, h] <;> norm_num

theorem adjustSteps_before9 (t : Nat)
    (hwd : ¬(dayOfWeek t = 0 ∨ dayOfWeek t = 6)) (h9 : hourOfDay t < 9) :
    adjustSteps (sameDay9 t) < adjustSteps t := by
  have hd := dayOfWeek_sameDay9 t
  have hh := hourOfDay_sameDay9 t
  unfold adjustSteps
  rw [hd, hh]
  push_neg at hwd
  split_ifs <;> omega

theorem adjustSteps_after17 (t : Nat)
    (hwd : ¬(dayOfWeek t = 0 ∨ dayOfWeek t = 6)) (h17 : 17 ≤ hourOfDay t) :
    adjustSteps (nextDay9 t) < adjustSteps t := by
  have hd := dayOfWeek_nextDay9 t
  have hh := hourOfDay_nextDay9 t
  have hlt := dayOfWeek_lt_seven t
  push_neg at hwd
  obtain ⟨hw0, hw6⟩ := hwd
  unfold adjustSteps
  rw [hd, hh]
  split_ifs <;> omega

theorem adjustSteps_window (t : Nat)
    (hwd : ¬(dayOfWeek t = 0 ∨ dayOfWeek t = 6)) (h9 : ¬ hourOfDay t < 9)
    (h17 : ¬ 17 ≤ hourOfDay t) : adjustSteps t = 0 := by
  push_neg at hwd
  unfold adjustSteps
  split_ifs <;> omega

/-- The `while (remainingHours > 0)` loop of `addBusinessHours`, with the
remaining budget in whole minutes (`remaining = remainingHours * 60`; the
`hoursUntilEndOfDay` arithmetic of the source is minute-exact, so the rescaling
is faithful).  Termination: consuming iterations strictly shrink the
budget, and `adjustSteps` strictly shrinks across each adjusting
iteration. -/
def addBusinessMinutes (t : Nat) (remaining : Nat) : Nat :=
  if remaining = 0 then t
  else if dayOfWeek t = 0 ∨ dayOfWeek t = 6 then
    addBusinessMinutes (nextDay9 t) remaining
  else if hourOfDay t < 9 then
    addBusinessMinutes (sameDay9 t) remaining
  else if 17 ≤ hourOfDay t then
    addBusinessMinutes (nextDay9 t) remaining
  else if remaining ≤ 1020 - minuteOfDay t then t + remaining
  else addBusinessMinutes (nextDay9 t) (remaining - (1020 - minuteOfDay t))
termination_by remaining * 4 + adjustSteps t
decreasing_by
  · have := adjustSteps_weekend t (by assumption)
    omega
  · have := adjustSteps_before9 t (by assumption) (by assumption)
    omega
  · have := adjustSteps_after17 t (by assumption) (by assumption)
    omega
  · have h0 := adjustSteps_window t (by assumption) (by assumption) (by assumption)
    have h3 := adjustSteps_le_three (nextDay9 t)
    have hm : minuteOfDay t < 1020 := by
      have : hourOfDay t < 17 := by omega
      unfold hourOfDay at this
      omega
    omega

/-- `addBusinessHours(startDate, hours, businessHoursOnly)`, with times in
minutes and `hours` a whole number of hours. -/
def addBusinessHours (startDate : Nat) (hours : Nat)
    (businessHoursOnly : Bool) : Nat :=
  if !businessHoursOnly then startDate + hours * 60
  else addBusinessMinutes startDate (hours * 60)

/-- The `defaultSLA` object literal in `calculateSLATarget`. -/
def defaultSLA : String → Option Nat
  | "critical" => some 4
  | "high" => some 24
  | "medium" => some 72
  | "low" => some 120
  | _ => none

/-- `defaultSLA[priority] || 72`. -/
def defaultSLAHours (priority : String) : Nat := (defaultSLA priority).getD 72

/-- `calculateSLATarget(priority, businessHoursOnly)`.  `lookup` is the
outcome of the `sla_configs` query for this priority (`Except.error` a
raised query, `Except.ok none` no active row, `Except.ok (some h)` the
persisted `resolution_time_hours`); `now` is the current time in
minutes. -/
def calculateSLATarget (lookup : Except Unit (Option Nat)) (now : Nat)
    (priority : String) (businessHoursOnly : Bool) : Nat :=
  match lookup with
  | Except.error _ => now + 24 * 60
  | Except.ok none => addBusinessHours now (defaultSLAHours priority) businessHoursOnly
  | Except.ok (some hours) => addBusinessHours now hours businessHoursOnly

/-! ### Scheduler lifecycle (`startMonitoring` / `stopMonitoring`) -/

/-- The `sla_alerts` settings row (`value` JSONB fields; a missing field
is `none`). -/
structure SlaSettingsRow where
  warning_threshold : Option ℚ
  critical_threshold : Option ℚ
deriving DecidableEq, Repr

/-- `loadSLASettings`: returns the updated thresholds together with
whether a load failure was logged.  A raised query is caught (the
thresholds keep their current values); a stored field only overrides when
truthy (`0` is falsy in JS). -/
def loadSLASettings (q : Except Unit (Option SlaSettingsRow))
    (th : Thresholds) : Thresholds × Bool :=
  match q with
  | Except.error _ => (th, true)
  | Except.ok none => (th, false)
  | Except.ok (some s) =>
    let w := match s.warning_threshold with
      | some w => if w = 0 then th.warning else w
      | none => th.warning
    let c := match s.critical_threshold with
      | some c => if c = 0 then th.critical else c
      | none => th.critical
    ({ warning := w, critical := c }, false)

/-- The mutable fields of the `SLAService` singleton. -/
structure SLAServiceState where
  alertThresholds : Thresholds
  checkInterval : Nat
  isRunning : Bool
  intervalId : Option Nat
deriving DecidableEq, Repr

/-- The state built by the `SLAService` constructor. -/
def SLAServiceState.init : SLAServiceState :=
  { alertThresholds := { warning := 0.8, critical := 0.95 },
    checkInterval := 15 * 60 * 1000,
    isRunning := false,
    intervalId := none }

/-- `startMonitoring`: early return when already running; otherwise load
settings (which never throws), install a fresh interval timer and set the
running flag.  `freshId` is the timer id `setInterval` returns. -/
def startMonitoring (s : SLAServiceState)
    (q : Except Unit (Option SlaSettingsRow)) (freshId : Nat) :
    SLAServiceState :=
  if s.isRunning then s
  else
    { s with
      alertThresholds := (loadSLASettings q s.alertThresholds).1,
      intervalId := some freshId,
      isRunning := true }

/-- `stopMonitoring`: clear the timer when one exists, then clear the
running flag. -/
def stopMonitoring (s : SLAServiceState) : SLAServiceState :=
  let s1 := match s.intervalId with
    | some _ => { s with intervalId := none }
    | none => s
  { s1 with isRunning := false }

/-! ### Shared lemmas -/

/-- `evaluateTicketSLA` is exactly a dispatch on `classifySLA`: the
matched handler receives the hours-overdue / hours-remaining figure
computed from `remainingTime`. -/
theorem evaluateTicketSLA_dispatch (th : Thresholds) (db : DBState)
    (t : Ticket) (now : ℚ) :
    evaluateTicketSLA th db t now =
      match classifySLA th t now with
      | none => db
      | some AlertKind.breach =>
          handleSLABreach db t |(t.sla_target - now) / 60| now
      | some AlertKind.critical =>
          handleCriticalSLAWarning db t ((t.sla_target - now) / 60) now
      | some AlertKind.warning =>
          handleSLAWarning db t ((t.sla_target - now) / 60) now := by
  simp only [evaluateTicketSLA, classifySLA]
  split_ifs with h1 h2 h3 h4
  · rfl
  · exact absurd (div_neg_of_neg_of_pos h1 (by norm_num)) h2
  · rfl
  · rfl
  · rfl

/-- A matching recent notification row forces the dedup check to fire. -/
theorem checkExistingAlert_true_of_mem (db : DBState) (now : ℚ)
    (ticketId : Nat) (s : String) (r : NotifRow)
    (hr : r ∈ db.notifications) (h1 : r.ticket_id = ticketId)
    (h2 : r.ntype = "sla_" ++ s) (h3 : now - 1440 < r.created_at) :
    checkExistingAlert (Except.ok (existingAlertQuery db now ticketId s)) = true := by
  unfold checkExistingAlert existingAlertQuery
  have hmem : r ∈ db.notifications.filter (fun n =>
      n.ticket_id == ticketId && n.ntype == ("sla_" ++ s) &&
        decide (now - 1440 < n.created_at)) :=
    List.mem_filter.mpr ⟨hr, by simp [h1, h2, h3]⟩
  have hpos : 0 < (db.notifications.filter (fun n =>
      n.ticket_id == ticketId && n.ntype == ("sla_" ++ s) &&
        decide (now - 1440 < n.created_at))).length :=
    List.length_pos.mpr (List.ne_nil_of_mem hmem)
  simp [hpos]

/-- Each handler either leaves the log untouched (dedup hit) or appends
exactly its one alert record. -/
theorem handler_logs (db : DBState) (t : Ticket) (h : ℚ) (now : ℚ) :
    ((handleSLABreach db t h now).logs = db.logs ∨
      (handleSLABreach db t h now).logs =
        db.logs ++ [recordSLAAlert t.id "breach" h t.sla_target]) ∧
    ((handleCriticalSLAWarning db t h now).logs = db.logs ∨
      (handleCriticalSLAWarning db t h now).logs =
        db.logs ++ [recordSLAAlert t.id "critical" h t.sla_target]) ∧
    ((handleSLAWarning db t h now).logs = db.logs ∨
      (handleSLAWarning db t h now).logs =
        db.logs ++ [recordSLAAlert t.id "warning" h t.sla_target]) := by
  unfold handleSLABreach handleSLABreachCore handleCriticalSLAWarning
    handleCriticalSLAWarningCore handleSLAWarning handleSLAWarningCore
  refine ⟨?_, ?_, ?_⟩ <;> split_ifs <;> simp

/-- A `breach` classification routes to `handleSLABreach`. -/
theorem evaluate_of_classify_breach (th : Thresholds) (db : DBState)
    (t : Ticket) (now : ℚ)
    (hk : classifySLA th t now = some AlertKind.breach) :
    evaluateTicketSLA th db t now =
      handleSLABreach db t |(t.sla_target - now) / 60| now := by
  rw [evaluateTicketSLA_dispatch, hk]

/-- A `critical` classification routes to `handleCriticalSLAWarning`. -/
theorem evaluate_of_classify_critical (th : Thresholds) (db : DBState)
    (t : Ticket) (now : ℚ)
    (hk : classifySLA th t now = some AlertKind.critical) :
    evaluateTicketSLA th db t now =
      handleCriticalSLAWarning db t ((t.sla_target - now) / 60) now := by
  rw [evaluateTicketSLA_dispatch, hk]

/-- A `warning` classification routes to `handleSLAWarning`. -/
theorem evaluate_of_classify_warning (th : Thresholds) (db : DBState)
    (t : Ticket) (now : ℚ)
    (hk : classifySLA th t now = some AlertKind.warning) :
    evaluateTicketSLA th db t now =
      handleSLAWarning db t ((t.sla_target - now) / 60) now := by
  rw [evaluateTicketSLA_dispatch, hk]

/-- No classification means no action on the store. -/
theorem evaluate_of_classify_none (th : Thresholds) (db : DBState)
    (t : Ticket) (now : ℚ) (hk : classifySLA th t now = none) :
    evaluateTicketSLA th db t now = db := by
  rw [evaluateTicketSLA_dispatch, hk]

/-- The ticket of the spec scenario: created at T = 0 with a 24-hour SLA
(`sla_target` = 1440 minutes). -/
def scenarioTicket : Ticket :=
  { id := 1, title := "Scenario", created_at := 0, sla_target := 1440,
    assignee_id := some 7, reporter_id := some 8 }

/-! ### Claims -/

/-- C5: with `businessHoursOnly = false`, `calculateSLATarget` returns
exactly `now` plus the configured hours (wall clock): the persisted
`resolution_time_hours` when an active row exists, else the hard-coded
defaults critical = 4, high = 24, medium = 72, low = 120. -/
theorem claim_C5_wall_clock_target (now : Nat) (priority : String) (h : Nat) :
    calculateSLATarget (Except.ok (some h)) now priority false = now + h * 60 ∧
    calculateSLATarget (Except.ok none) now priority false =
      now + defaultSLAHours priority * 60 ∧
    defaultSLAHours "critical" = 4 ∧ defaultSLAHours "high" = 24 ∧
    defaultSLAHours "medium" = 72 ∧ defaultSLAHours "low" = 120 := by
  refine ⟨rfl, rfl, rfl, rfl, rfl, rfl⟩

/-- C10: an unrecognized priority with no active configuration row falls
back to 72 hours (the medium default) instead of failing. -/
theorem claim_C10_unknown_priority_fallback (now : Nat) (priority : String)
    (h1 : priority ≠ "critical") (h2 : priority ≠ "high")
    (h3 : priority ≠ "medium") (h4 : priority ≠ "low") :
    calculateSLATarget (Except.ok none) now priority false = now + 72 * 60 := by
  have hd : defaultSLA priority = none := by
    unfold defaultSLA
    split <;> simp_all
  simp [calculateSLATarget, addBusinessHours, defaultSLAHours, hd]

/-- Witness for C10 at the concrete priority string `urgent`. -/
theorem claim_C10_witness :
    calculateSLATarget (Except.ok none) 1000 "urgent" false = 1000 + 72 * 60 :=
  claim_C10_unknown_priority_fallback 1000 "urgent"
    (by decide) (by decide) (by decide) (by decide)

/-- C7: the scheduler has exactly the two states given by the running
flag; `startMonitoring` while running and `stopMonitoring` while stopped
are no-ops (in particular no second timer is installed), and the two
operations realize exactly the stopped-to-running and running-to-stopped
transitions. -/
theorem claim_C7_lifecycle (s : SLAServiceState)
    (q : Except Unit (Option SlaSettingsRow)) (freshId : Nat) :
    (s.isRunning = true → startMonitoring s q freshId = s) ∧
    (s.isRunning = false → s.intervalId = none → stopMonitoring s = s) ∧
    (startMonitoring s q freshId).isRunning = true ∧
    (stopMonitoring s).isRunning = false ∧
    (stopMonitoring s).intervalId = none ∧
    (s.isRunning = false →
      (startMonitoring s q freshId).intervalId = some freshId) := by
  obtain ⟨th, ci, run, tid⟩ := s
  refine ⟨?_, ?_, ?_, ?_, ?_, ?_⟩ <;>
    cases run <;> cases tid <;>
      simp [startMonitoring, stopMonitoring]

/-- Witness for C7 at the constructor state. -/
theorem claim_C7_witness :
    stopMonitoring SLAServiceState.init = SLAServiceState.init ∧
    (startMonitoring SLAServiceState.init (Except.ok none) 5).isRunning = true :=
  ⟨(claim_C7_lifecycle SLAServiceState.init (Except.ok none) 5).2.1 rfl rfl,
    (claim_C7_lifecycle SLAServiceState.init (Except.ok none) 5).2.2.1⟩

/-- C8: a failed or empty threshold-configuration load keeps the current
thresholds (the compiled-in defaults 0.8 / 0.95 at monitor start), flags
the failure for logging, and `startMonitoring` still completes normally
(the load error is swallowed, never propagated). -/
theorem claim_C8_config_fallback (th : Thresholds) (freshId : Nat) :
    loadSLASettings (Except.error ()) th = (th, true) ∧
    loadSLASettings (Except.ok none) th = (th, false) ∧
    (startMonitoring SLAServiceState.init (Except.error ()) freshId).alertThresholds =
      { warning := 0.8, critical := 0.95 } ∧
    (startMonitoring SLAServiceState.init (Except.error ()) freshId).isRunning = true ∧
    (startMonitoring SLAServiceState.init (Except.ok none) freshId).alertThresholds =
      { warning := 0.8, critical := 0.95 } := by
  refine ⟨rfl, rfl, ?_, ?_, ?_⟩ <;> rfl

/-- The unassigned ticket used for the C2/C9 duplicate scenarios. -/
def unassignedTicket : Ticket :=
  { id := 2, title := "Unassigned", created_at := 0, sla_target := 1440,
    assignee_id := none, reporter_id := some 3 }

/-- C9: dedup fails open — an erroring existence query is reported as
`false`, so the breach handler records a fresh AlertRecord and dispatches
notifications instead of suppressing them; concretely, a second breach
pass whose check errors duplicates the alert record inside the 24-hour
window. -/
theorem claim_C9_dedup_fails_open (db : DBState) (t : Ticket)
    (hoursOverdue : ℚ) (now : ℚ) :
    checkExistingAlert (Except.error ()) = false ∧
    handleSLABreachCore db t hoursOverdue now (checkExistingAlert (Except.error ())) =
      { notifications := db.notifications ++ sendBreachNotifications t hoursOverdue now,
        logs := db.logs ++ [recordSLAAlert t.id "breach" hoursOverdue t.sla_target] } ∧
    (handleSLABreachCore
        (evaluateTicketSLA defaultThresholds DBState.empty scenarioTicket 1500)
        scenarioTicket 1 1500 (checkExistingAlert (Except.error ()))).logs.length = 2 := by
  refine ⟨rfl, rfl, ?_⟩
  norm_num [evaluateTicketSLA, defaultThresholds, scenarioTicket, DBState.empty,
    handleSLABreach, handleSLABreachCore, checkExistingAlert,
    existingAlertQuery, recordSLAAlert]

/-- Membership in the breach-notification batch, by recipient. -/
theorem mem_sendBreachNotifications (t : Ticket) (hO now : ℚ) (r : NotifRow) :
    r ∈ sendBreachNotifications t hO now ↔
      (t.assignee_id.isSome ∧
        r = createSLANotification t.assignee_id t.id "sla_breach"
          ("SLA Breach - Ticket #" ++ toString t.id)
          (Message.breachAssignee t.title (jsRound hO)) now) ∨
      (t.reporter_id ≠ t.assignee_id ∧
        r = createSLANotification t.reporter_id t.id "sla_breach"
          ("SLA Breach Alert - Your Ticket #" ++ toString t.id)
          (Message.breachReporter t.title) now) := by
  unfold sendBreachNotifications
  split_ifs with h1 h2 <;> simp_all

/-- C6: breach notifications go to the assignee exactly when one is
present (with the rounded hours-overdue figure in the message) and to the
reporter exactly when the reporter differs from the assignee;
warning/critical notifications go only to a present assignee and nobody
otherwise. -/
theorem claim_C6_notification_recipients (t : Ticket) (hO hR hC now : ℚ) :
    ((∃ r ∈ sendBreachNotifications t hO now,
        r.message = Message.breachAssignee t.title (jsRound hO)) ↔
      t.assignee_id.isSome) ∧
    ((∃ r ∈ sendBreachNotifications t hO now,
        r.message = Message.breachReporter t.title) ↔
      t.reporter_id ≠ t.assignee_id) ∧
    (∀ a, t.assignee_id = some a →
      sendWarningNotifications t hR now =
        [createSLANotification (some a) t.id "sla_warning"
          ("SLA Warning - Ticket #" ++ toString t.id)
          (Message.warningAssignee t.title (jsRound hR)) now]) ∧
    (t.assignee_id = none → sendWarningNotifications t hR now = []) ∧
    (∀ a, t.assignee_id = some a →
      sendCriticalWarningNotifications t hC now =
        [createSLANotification (some a) t.id "sla_critical"
          ("Critical SLA Warning - Ticket #" ++ toString t.id)
          (Message.criticalAssignee t.title (jsRound hC)) now]) ∧
    (t.assignee_id = none → sendCriticalWarningNotifications t hC now = []) := by
  refine ⟨?_, ?_, ?_, ?_, ?_, ?_⟩
  · constructor
    · rintro ⟨r, hr, hmsg⟩
      rw [mem_sendBreachNotifications] at hr
      rcases hr with ⟨hs, rfl⟩ | ⟨hne, rfl⟩
      · exact hs
      · simp [createSLANotification] at hmsg
    · intro hsome
      refine ⟨createSLANotification t.assignee_id t.id "sla_breach"
        ("SLA Breach - Ticket #" ++ toString t.id)
        (Message.breachAssignee t.title (jsRound hO)) now, ?_, rfl⟩
      rw [mem_sendBreachNotifications]
      exact Or.inl ⟨hsome, rfl⟩
  · constructor
    · rintro ⟨r, hr, hmsg⟩
      rw [mem_sendBreachNotifications] at hr
      rcases hr with ⟨hs, rfl⟩ | ⟨hne, rfl⟩
      · simp [createSLANotification] at hmsg
      · exact hne
    · intro hne
      refine ⟨createSLANotification t.reporter_id t.id "sla_breach"
        ("SLA Breach Alert - Your Ticket #" ++ toString t.id)
        (Message.breachReporter t.title) now, ?_, rfl⟩
      rw [mem_sendBreachNotifications]
      exact Or.inr ⟨hne, rfl⟩
  · intro a ha
    simp [sendWarningNotifications, ha]
  · intro ha
    simp [sendWarningNotifications, ha]
  · intro a ha
    simp [sendCriticalWarningNotifications, ha]
  · intro ha
    simp [sendCriticalWarningNotifications, ha]

/-- Witness for C6 at the scenario ticket (assignee 7, reporter 8). -/
theorem claim_C6_witness :
    sendWarningNotifications scenarioTicket 4 1200 =
      [createSLANotification (some 7) 1 "sla_warning"
        ("SLA Warning - Ticket #" ++ toString 1)
        (Message.warningAssignee "Scenario" (jsRound 4)) 1200] :=
  (claim_C6_notification_recipients scenarioTicket 1 4 2 1200).2.2.1 7 rfl

/-- C1: classification is first-match exclusive — breach exactly when
`remainingTime < 0` (recording `hoursOverdue = |remainingTime|` in
hours), else critical exactly when the elapsed ratio reaches
`criticalRatio`, else warning exactly when it reaches `warningRatio`,
else no action; a pass records at most one alert kind per ticket; and on
the 24-hour-SLA scenario ticket the classification is warning at T+20h
(4 hours remaining), critical at T+23h, and breach at T+25h (1 hour
overdue). -/
theorem claim_C1_classification (th : Thresholds) (db : DBState)
    (t : Ticket) (now : ℚ) :
    (classifySLA th t now = some AlertKind.breach ↔ t.sla_target - now < 0) ∧
    (classifySLA th t now = some AlertKind.critical ↔
      ¬ t.sla_target - now < 0 ∧
        th.critical ≤ (now - t.created_at) / (t.sla_target - t.created_at)) ∧
    (classifySLA th t now = some AlertKind.warning ↔
      ¬ t.sla_target - now < 0 ∧
        ¬ th.critical ≤ (now - t.created_at) / (t.sla_target - t.created_at) ∧
        th.warning ≤ (now - t.created_at) / (t.sla_target - t.created_at)) ∧
    (∀ k : AlertKind, classifySLA th t now = some k →
      existingAlertQuery db now t.id k.str = [] →
      (evaluateTicketSLA th db t now).logs = db.logs ++
        [recordSLAAlert t.id k.str
          (match k with
            | AlertKind.breach => |(t.sla_target - now) / 60|
            | AlertKind.critical => (t.sla_target - now) / 60
            | AlertKind.warning => (t.sla_target - now) / 60)
          t.sla_target]) ∧
    (∃ tail, (evaluateTicketSLA th db t now).logs = db.logs ++ tail ∧
      tail.length ≤ 1) ∧
    classifySLA defaultThresholds scenarioTicket 1200 = some AlertKind.warning ∧
    (evaluateTicketSLA defaultThresholds DBState.empty scenarioTicket 1200).logs =
      [recordSLAAlert 1 "warning" 4 1440] ∧
    classifySLA defaultThresholds scenarioTicket 1380 = some AlertKind.critical ∧
    classifySLA defaultThresholds scenarioTicket 1500 = some AlertKind.breach ∧
    (evaluateTicketSLA defaultThresholds DBState.empty scenarioTicket 1500).logs =
      [recordSLAAlert 1 "breach" 1 1440] := by
  refine ⟨?_, ?_, ?_, ?_, ?_, ?_, ?_, ?_, ?_, ?_⟩
  · simp only [classifySLA]
    split_ifs <;> simp_all
  · simp only [classifySLA]
    split_ifs <;> simp_all
  · simp only [classifySLA]
    split_ifs <;> simp_all
  · intro k hk hq
    cases k
    · rw [evaluate_of_classify_breach th db t now hk]
      simp only [AlertKind.str] at hq
      unfold handleSLABreach handleSLABreachCore
      rw [hq]
      simp [checkExistingAlert, AlertKind.str]
    · rw [evaluate_of_classify_critical th db t now hk]
      simp only [AlertKind.str] at hq
      unfold handleCriticalSLAWarning handleCriticalSLAWarningCore
      rw [hq]
      simp [checkExistingAlert, AlertKind.str]
    · rw [evaluate_of_classify_warning th db t now hk]
      simp only [AlertKind.str] at hq
      unfold handleSLAWarning handleSLAWarningCore
      rw [hq]
      simp [checkExistingAlert, AlertKind.str]
  · rcases hc : classifySLA th t now with _ | k
    · rw [evaluate_of_classify_none th db t now hc]
      exact ⟨[], by simp, by simp⟩
    · cases k
      · rw [evaluate_of_classify_breach th db t now hc]
        rcases (handler_logs db t (|(t.sla_target - now) / 60|) now).1 with h | h
        · exact ⟨[], by simp [h], by simp⟩
        · exact ⟨[recordSLAAlert t.id "breach" (|(t.sla_target - now) / 60|) t.sla_target],
            by simp [h], by simp⟩
      · rw [evaluate_of_classify_critical th db t now hc]
        rcases (handler_logs db t ((t.sla_target - now) / 60) now).2.1 with h | h
        · exact ⟨[], by simp [h], by simp⟩
        · exact ⟨[recordSLAAlert t.id "critical" ((t.sla_target - now) / 60) t.sla_target],
            by simp [h], by simp⟩
      · rw [evaluate_of_classify_warning th db t now hc]
        rcases (handler_logs db t ((t.sla_target - now) / 60) now).2.2 with h | h
        · exact ⟨[], by simp [h], by simp⟩
        · exact ⟨[recordSLAAlert t.id "warning" ((t.sla_target - now) / 60) t.sla_target],
            by simp [h], by simp⟩
  · norm_num [classifySLA, scenarioTicket, defaultThresholds]
  · norm_num [evaluateTicketSLA, defaultThresholds, scenarioTicket, DBState.empty,
      handleSLAWarning, handleSLAWarningCore, checkExistingAlert,
      existingAlertQuery, recordSLAAlert]
  · norm_num [classifySLA, scenarioTicket, defaultThresholds]
  · norm_num [classifySLA, scenarioTicket, defaultThresholds]
  · norm_num [evaluateTicketSLA, defaultThresholds, scenarioTicket, DBState.empty,
      handleSLABreach, handleSLABreachCore, checkExistingAlert,
      existingAlertQuery, recordSLAAlert]

/-- Witness for C1: the record written for the scenario ticket at T+20h. -/
theorem claim_C1_witness :
    (evaluateTicketSLA defaultThresholds DBState.empty scenarioTicket 1200).logs =
      DBState.empty.logs ++
        [recordSLAAlert scenarioTicket.id (AlertKind.str AlertKind.warning)
          ((scenarioTicket.sla_target - 1200) / 60) scenarioTicket.sla_target] :=
  (claim_C1_classification defaultThresholds DBState.empty scenarioTicket 1200).2.2.2.1
    AlertKind.warning
    (by norm_num [classifySLA, scenarioTicket, defaultThresholds]) rfl

/-- C4: with `businessHoursOnly = true` the deadline walk consumes only
09:00–17:00 time on non-weekend days — weekend starts jump to the next
day 09:00, pre-09:00 starts jump to 09:00 the same day, post-17:00
starts jump to the next day 09:00, and otherwise the remaining budget is
either finished inside the current window or the remainder carries to the
next day 09:00; the walk is total (the Lean definition carries a
termination proof), and Friday 16:00 plus 4 business hours is Monday
12:00 (2400 and 6480 minutes under the Thursday epoch). -/
theorem claim_C4_business_hours (t rem : Nat) :
    (0 < rem → (dayOfWeek t = 0 ∨ dayOfWeek t = 6) →
      addBusinessMinutes t rem = addBusinessMinutes (nextDay9 t) rem) ∧
    (0 < rem → ¬(dayOfWeek t = 0 ∨ dayOfWeek t = 6) → hourOfDay t < 9 →
      addBusinessMinutes t rem = addBusinessMinutes (sameDay9 t) rem) ∧
    (0 < rem → ¬(dayOfWeek t = 0 ∨ dayOfWeek t = 6) → ¬ hourOfDay t < 9 →
      17 ≤ hourOfDay t →
      addBusinessMinutes t rem = addBusinessMinutes (nextDay9 t) rem) ∧
    (0 < rem → ¬(dayOfWeek t = 0 ∨ dayOfWeek t = 6) → ¬ hourOfDay t < 9 →
      ¬ 17 ≤ hourOfDay t → rem ≤ 1020 - minuteOfDay t →
      addBusinessMinutes t rem = t + rem) ∧
    (0 < rem → ¬(dayOfWeek t = 0 ∨ dayOfWeek t = 6) → ¬ hourOfDay t < 9 →
      ¬ 17 ≤ hourOfDay t → ¬ rem ≤ 1020 - minuteOfDay t →
      addBusinessMinutes t rem =
        addBusinessMinutes (nextDay9 t) (rem - (1020 - minuteOfDay t))) ∧
    addBusinessHours 2400 4 true = 6480 ∧
    dayOfWeek 2400 = 5 ∧ minuteOfDay 2400 = 960 ∧
    dayOfWeek 6480 = 1 ∧ minuteOfDay 6480 = 720 := by
  refine ⟨?_, ?_, ?_, ?_, ?_, ?_, ?_, ?_, ?_, ?_⟩
  · intro h0 hwk
    rw [addBusinessMinutes, if_neg (by omega : ¬ rem = 0), if_pos hwk]
  · intro h0 hwk h9
    rw [addBusinessMinutes, if_neg (by omega : ¬ rem = 0), if_neg hwk, if_pos h9]
  · intro h0 hwk h9 h17
    rw [addBusinessMinutes, if_neg (by omega : ¬ rem = 0), if_neg hwk,
      if_neg h9, if_pos h17]
  · intro h0 hwk h9 h17 hfit
    rw [addBusinessMinutes, if_neg (by omega : ¬ rem = 0), if_neg hwk,
      if_neg h9, if_neg h17, if_pos hfit]
  · intro h0 hwk h9 h17 hfit
    rw [addBusinessMinutes, if_neg (by omega : ¬ rem = 0), if_neg hwk,
      if_neg h9, if_neg h17, if_neg hfit]
  · show addBusinessMinutes 2400 240 = 6480
    rw [addBusinessMinutes]
    norm_num [dayOfWeek, hourOfDay, minuteOfDay, nextDay9]
    rw [addBusinessMinutes]
    norm_num [dayOfWeek, hourOfDay, minuteOfDay, nextDay9]
    rw [addBusinessMinutes]
    norm_num [dayOfWeek, hourOfDay, minuteOfDay, nextDay9]
    rw [addBusinessMinutes]
    norm_num [dayOfWeek, hourOfDay, minuteOfDay, nextDay9]
  · decide
  · decide
  · decide
  · decide

/-- Witness for C4: one business hour starting Monday 09:00 is consumed
inside the window of the same day. -/
theorem claim_C4_witness : addBusinessMinutes 6300 60 = 6300 + 60 :=
  (claim_C4_business_hours 6300 60).2.2.2.1 (by norm_num) (by decide)
    (by decide) (by decide) (by decide)

/-- Counterexample to C3: a pass over a malformed row followed by a
well-formed breached ticket writes no alert record at all — evaluating
the well-formed ticket alone would have recorded its breach, so the
remaining tickets of the pass were not evaluated and classified. -/
theorem claim_C3_counterexample :
    (checkSLABreaches defaultThresholds DBState.empty 1500
      [none, some scenarioTicket]).logs = [] ∧
    (evaluateTicketSLA defaultThresholds DBState.empty scenarioTicket 1500).logs =
      [recordSLAAlert 1 "breach" 1 1440] := by
  constructor
  · rfl
  · norm_num [evaluateTicketSLA, defaultThresholds, scenarioTicket, DBState.empty,
      handleSLABreach, handleSLABreachCore, checkExistingAlert,
      existingAlertQuery, recordSLAAlert]

/-- C3 (amended): an error while evaluating one ticket is caught at pass
level and never propagates out of `checkSLABreaches`, and every ticket
before the failing row is fully evaluated — but the tickets after the
failing row are skipped, because the try/catch wraps the whole loop
(isolation is per pass, not per ticket). -/
theorem claim_C3_pass_isolation (th : Thresholds) (db : DBState) (now : ℚ)
    (goods : List Ticket) (rest : List (Option Ticket)) :
    checkSLABreaches th db now (goods.map some ++ none :: rest) =
      checkSLABreaches th db now (goods.map some) ∧
    checkSLABreaches th db now (goods.map some) =
      goods.foldl (fun d t => evaluateTicketSLA th d t now) db := by
  induction goods generalizing db with
  | nil =>
    constructor
    · rfl
    · rfl
  | cons t ts ih =>
    constructor
    · show checkSLABreaches th db now
          (some t :: (ts.map some ++ none :: rest)) =
        checkSLABreaches th db now (some t :: ts.map some)
      simp only [checkSLABreaches, evaluateTicketRow]
      exact (ih (evaluateTicketSLA th db t now)).1
    · simp only [List.map_cons, checkSLABreaches, evaluateTicketRow,
        List.foldl_cons]
      exact (ih (evaluateTicketSLA th db t now)).2

/-- Counterexample to C2: an unassigned ticket classified `warning` in
two passes 1 minute apart gets a second AlertRecord — the dedup check
looks at notification rows, and an unassigned warning dispatches none,
so nothing suppresses the re-record. -/
theorem claim_C2_counterexample :
    classifySLA defaultThresholds unassignedTicket 1200 = some AlertKind.warning ∧
    classifySLA defaultThresholds unassignedTicket 1201 = some AlertKind.warning ∧
    (evaluateTicketSLA defaultThresholds DBState.empty unassignedTicket 1200).logs.length = 1 ∧
    (evaluateTicketSLA defaultThresholds
      (evaluateTicketSLA defaultThresholds DBState.empty unassignedTicket 1200)
      unassignedTicket 1201).logs.length = 2 := by
  refine ⟨?_, ?_, ?_, ?_⟩
  · norm_num [classifySLA, unassignedTicket, defaultThresholds]
  · norm_num [classifySLA, unassignedTicket, defaultThresholds]
  · norm_num [evaluateTicketSLA, defaultThresholds, unassignedTicket, DBState.empty,
      handleSLAWarning, handleSLAWarningCore, checkExistingAlert,
      existingAlertQuery, recordSLAAlert, sendWarningNotifications]
  · norm_num [evaluateTicketSLA, defaultThresholds, unassignedTicket, DBState.empty,
      handleSLAWarning, handleSLAWarningCore, checkExistingAlert,
      existingAlertQuery, recordSLAAlert, sendWarningNotifications]

/-- C2 (amended): the dedup window is keyed on notification rows, so for
any ticket whose first pass dispatched at least one notification — an
assignee is present, or the kind is breach and the reporter differs
from the assignee — a second pass within 24 hours that reaches the same
classification changes nothing: no second AlertRecord and no further
notification for any recipient.  (A ticket whose pass dispatches no
notification is not protected, as the counterexample shows on two
concrete passes.) -/
theorem claim_C2_dedup (th : Thresholds) (db : DBState) (t : Ticket)
    (k : AlertKind) (now nowLater : ℚ)
    (hdisp : t.assignee_id.isSome ∨
      (k = AlertKind.breach ∧ t.reporter_id ≠ t.assignee_id))
    (hk1 : classifySLA th t now = some k)
    (hk2 : classifySLA th t nowLater = some k)
    (hq : existingAlertQuery db now t.id k.str = [])
    (hwin : nowLater - now < 1440) :
    evaluateTicketSLA th (evaluateTicketSLA th db t now) t nowLater =
      evaluateTicketSLA th db t now := by
  have hwin' : nowLater - 1440 < now := by linarith
  cases k
  · rw [evaluate_of_classify_breach th db t now hk1]
    simp only [AlertKind.str] at hq
    have hdb1 : handleSLABreach db t (|(t.sla_target - now) / 60|) now =
        { notifications := db.notifications ++
            sendBreachNotifications t (|(t.sla_target - now) / 60|) now,
          logs := db.logs ++ [recordSLAAlert t.id "breach"
            (|(t.sla_target - now) / 60|) t.sla_target] } := by
      unfold handleSLABreach handleSLABreachCore
      rw [hq]
      simp [checkExistingAlert]
    rw [hdb1, evaluate_of_classify_breach th _ t nowLater hk2]
    have hne : sendBreachNotifications t (|(t.sla_target - now) / 60|) now ≠ [] := by
      rcases hdisp with hs | ⟨_, hr⟩
      · simp [sendBreachNotifications, hs]
      · simp [sendBreachNotifications, hr]
    obtain ⟨r, hrmem⟩ := List.exists_mem_of_ne_nil _ hne
    have hprops : r.ticket_id = t.id ∧ r.ntype = "sla_breach" ∧
        r.created_at = now := by
      rcases (mem_sendBreachNotifications t _ now r).mp hrmem with
        ⟨_, rfl⟩ | ⟨_, rfl⟩ <;> exact ⟨rfl, rfl, rfl⟩
    have hmem : r ∈ db.notifications ++
        sendBreachNotifications t (|(t.sla_target - now) / 60|) now :=
      List.mem_append_right _ hrmem
    have hcheck := checkExistingAlert_true_of_mem
      { notifications := db.notifications ++
          sendBreachNotifications t (|(t.sla_target - now) / 60|) now,
        logs := db.logs ++ [recordSLAAlert t.id "breach"
          (|(t.sla_target - now) / 60|) t.sla_target] }
      nowLater t.id "breach" r hmem hprops.1 hprops.2.1
      (by rw [hprops.2.2]; exact hwin')
    unfold handleSLABreach handleSLABreachCore
    rw [hcheck]
    simp
  · have hs : t.assignee_id.isSome := by
      rcases hdisp with hs | ⟨hbk, _⟩
      · exact hs
      · exact absurd hbk (by decide)
    rw [evaluate_of_classify_critical th db t now hk1]
    simp only [AlertKind.str] at hq
    have hdb1 : handleCriticalSLAWarning db t ((t.sla_target - now) / 60) now =
        { notifications := db.notifications ++
            sendCriticalWarningNotifications t ((t.sla_target - now) / 60) now,
          logs := db.logs ++ [recordSLAAlert t.id "critical"
            ((t.sla_target - now) / 60) t.sla_target] } := by
      unfold handleCriticalSLAWarning handleCriticalSLAWarningCore
      rw [hq]
      simp [checkExistingAlert]
    rw [hdb1, evaluate_of_classify_critical th _ t nowLater hk2]
    have hmem : createSLANotification t.assignee_id t.id "sla_critical"
        ("Critical SLA Warning - Ticket #" ++ toString t.id)
        (Message.criticalAssignee t.title (jsRound ((t.sla_target - now) / 60))) now ∈
        db.notifications ++
          sendCriticalWarningNotifications t ((t.sla_target - now) / 60) now := by
      refine List.mem_append_right _ ?_
      simp [sendCriticalWarningNotifications, hs]
    have hcheck := checkExistingAlert_true_of_mem
      { notifications := db.notifications ++
          sendCriticalWarningNotifications t ((t.sla_target - now) / 60) now,
        logs := db.logs ++ [recordSLAAlert t.id "critical"
          ((t.sla_target - now) / 60) t.sla_target] }
      nowLater t.id "critical" _ hmem rfl rfl hwin'
    unfold handleCriticalSLAWarning handleCriticalSLAWarningCore
    rw [hcheck]
    simp
  · have hs : t.assignee_id.isSome := by
      rcases hdisp with hs | ⟨hbk, _⟩
      · exact hs
      · exact absurd hbk (by decide)
    rw [evaluate_of_classify_warning th db t now hk1]
    simp only [AlertKind.str] at hq
    have hdb1 : handleSLAWarning db t ((t.sla_target - now) / 60) now =
        { notifications := db.notifications ++
            sendWarningNotifications t ((t.sla_target - now) / 60) now,
          logs := db.logs ++ [recordSLAAlert t.id "warning"
            ((t.sla_target - now) / 60) t.sla_target] } := by
      unfold handleSLAWarning handleSLAWarningCore
      rw [hq]
      simp [checkExistingAlert]
    rw [hdb1, evaluate_of_classify_warning th _ t nowLater hk2]
    have hmem : createSLANotification t.assignee_id t.id "sla_warning"
        ("SLA Warning - Ticket #" ++ toString t.id)
        (Message.warningAssignee t.title (jsRound ((t.sla_target - now) / 60))) now ∈
        db.notifications ++
          sendWarningNotifications t ((t.sla_target - now) / 60) now := by
      refine List.mem_append_right _ ?_
      simp [sendWarningNotifications, hs]
    have hcheck := checkExistingAlert_true_of_mem
      { notifications := db.notifications ++
          sendWarningNotifications t ((t.sla_target - now) / 60) now,
        logs := db.logs ++ [recordSLAAlert t.id "warning"
          ((t.sla_target - now) / 60) t.sla_target] }
      nowLater t.id "warning" _ hmem rfl rfl hwin'
    unfold handleSLAWarning handleSLAWarningCore
    rw [hcheck]
    simp

/-- Witness for C2 (amended): a second pass one minute later is a no-op
both for the assigned scenario ticket classified warning and for the
unassigned ticket classified breach, whose reporter row feeds the dedup
check. -/
theorem claim_C2_witness :
    (evaluateTicketSLA defaultThresholds
        (evaluateTicketSLA defaultThresholds DBState.empty scenarioTicket 1200)
        scenarioTicket 1201 =
      evaluateTicketSLA defaultThresholds DBState.empty scenarioTicket 1200) ∧
    (evaluateTicketSLA defaultThresholds
        (evaluateTicketSLA defaultThresholds DBState.empty unassignedTicket 1500)
        unassignedTicket 1501 =
      evaluateTicketSLA defaultThresholds DBState.empty unassignedTicket 1500) :=
  ⟨claim_C2_dedup defaultThresholds DBState.empty scenarioTicket
      AlertKind.warning 1200 1201 (Or.inl (by decide))
      (by norm_num [classifySLA, scenarioTicket, defaultThresholds])
      (by norm_num [classifySLA, scenarioTicket, defaultThresholds])
      rfl (by norm_num),
    claim_C2_dedup defaultThresholds DBState.empty unassignedTicket
      AlertKind.breach 1500 1501 (Or.inr ⟨rfl, by decide⟩)
      (by norm_num [classifySLA, unassignedTicket, defaultThresholds])
      (by norm_num [classifySLA, unassignedTicket, defaultThresholds])
      rfl (by norm_num)⟩

end IncidentTracker
